import Mathlib

set_option maxRecDepth 10000

/-!
Shallow embedding of `streamlit_personal_assistant.py`.

The program is a single-file Streamlit app: a prompt-template table, a
generation-client wrapper `call_openai`, a denylist filter `simple_filter`,
a tone-suffix function `apply_tone`, a notes-extraction block, and a run
dispatch over six UI modes.  External effects (the `openai` import, the
API key, the backend call, the `PyPDF2` import, PDF page extraction and
UTF-8 decoding of uploads) are modelled as an explicit environment; the
run dispatch is modelled as a pure function from the UI state and that
environment to the list of generation calls issued together with the
warning/error/output messages rendered.
-/

namespace StudyWiz

/-- Python `s.lower()` restricted to character-wise lowering (the banned
words and casing variants relevant here are ASCII). -/
def pyLower (s : String) : String :=
  String.mk (s.data.map Char.toLower)

/-- Python `needle in hay` on strings: substring containment. -/
def pyInStr (needle hay : String) : Bool :=
  decide (needle.data <:+: hay.data)

/-- Python `s.strip()`: drop whitespace from both ends (structural over
the character list, so that it evaluates in the kernel). -/
def pyStrip (s : String) : String :=
  String.mk (((s.data.dropWhile Char.isWhitespace).reverse.dropWhile Char.isWhitespace).reverse)

/-- Python truthiness of an optional string (`None` and `""` are falsy),
used for `if not OPENAI_API_KEY` and `if system`. -/
def pyTruthy : Option String → Bool
  | none => false
  | some s => !(s = "")

/-- One `{role, content}` chat message. -/
structure Message where
  role : String
  content : String
  deriving DecidableEq, Repr

/-- The external world of the app: whether `import openai` succeeds, the
`OPENAI_API_KEY` value, the backend `chat.completions.create` outcome as a
function of the request, and whether `import PyPDF2` succeeds. -/
structure Env where
  openaiAvailable : Bool
  apiKey : Option String
  backend : List Message → Rat → Nat → Except String String
  pypdf2Available : Bool

/-- Message list built by `call_openai`: optional system role, then the
user role carrying the prompt (source lines 56-59). -/
def mkMessages (system prompt : String) : List Message :=
  (if pyTruthy (some system) then [Message.mk "system" system] else [])
    ++ [Message.mk "user" prompt]

/-- Source lines 45-71, `call_openai`.  The first component is the string
the function returns; the second records whether the backend call
(`openai.chat.completions.create`) was issued at all. -/
def call_openai (env : Env) (prompt : String) (system : String)
    (temperature : Rat) (max_tokens : Nat) : String × Bool :=
  if env.openaiAvailable = false then
    ("Error: openai package not installed. Install with `pip install openai`.", false)
  else if pyTruthy env.apiKey = false then
    ("Error: OPENAI_API_KEY not set.", false)
  else
    match env.backend (mkMessages system prompt) temperature max_tokens with
    | Except.ok text => (pyStrip text, true)
    | Except.error e => ("OpenAI API error: " ++ e, true)

/-- Banned substrings of `simple_filter` (source line 162). -/
def bannedWords : List String := ["bomb", "kill", "suicide"]

/-- Source lines 161-164, `simple_filter`: `True` means the input passes. -/
def simple_filter (text : String) : Bool :=
  let lower := pyLower text
  !(bannedWords.any (fun b => pyInStr b lower))

/-- Source lines 167-176, `apply_tone`. -/
def apply_tone (prompt : String) (tone : String) : String :=
  if tone = "Friendly" then prompt ++ "\nKeep the tone friendly and encouraging."
  else if tone = "Formal" then prompt ++ "\nUse a formal and professional tone."
  else if tone = "Casual" then prompt ++ "\nUse a casual, chatty tone with short sentences."
  else if tone = "Funny" then prompt ++ "\nAdd light humor where appropriate."
  else prompt

/-- Replace every occurrence of `pat` in the text by `repl`, scanning left
to right; the fuel argument (instantiated with the text length) bounds the
recursion. -/
def replaceFuel (pat repl : List Char) : Nat → List Char → List Char
  | 0, l => l
  | _ + 1, [] => []
  | n + 1, c :: rest =>
    if pat.isPrefixOf (c :: rest) then
      repl ++ replaceFuel pat repl n (List.drop pat.length (c :: rest))
    else
      c :: replaceFuel pat repl n rest

/-- Python `tmpl.format(field=value)` for the templates of this app, each
of which uses a single named placeholder. -/
def pyFormat (tmpl field value : String) : String :=
  let pat := "\x7b" ++ field ++ "\x7d"
  String.mk (replaceFuel pat.data value.data tmpl.data.length tmpl.data)

/-- Interpolate the `\x7binput\x7d` placeholder. -/
def fmtInput (tmpl value : String) : String := pyFormat tmpl "input" value

/-- Interpolate the `\x7btopic\x7d` placeholder. -/
def fmtTopic (tmpl value : String) : String := pyFormat tmpl "topic" value

/-- Template table, source lines 74-95. -/
def TMPL_summarize : String := "Summarize the following text into a short, clear summary (3-6 lines). Keep it simple and friendly: \n\n{input}"

/-- Template `improve`. -/
def TMPL_improve : String := "Improve the following text so it sounds polished, professional, and concise. Keep original meaning:\n\n{input}"

/-- Template `explain_simple`. -/
def TMPL_explain_simple : String := "Explain the following concept like I'm {age} years old. Use simple language, examples, and a short summary at the end:\n\n{input}"

/-- Template `shakespeare`. -/
def TMPL_shakespeare : String := "Turn this into Shakespearean-style language, with poetic phrasing and a touch of humor:\n\n{input}"

/-- Template `rap`. -/
def TMPL_rap : String := "Turn this into a short rap verse (4-8 lines), keeping the original message and making it catchy and rhythmic:\n\n{input}"

/-- Template `meme`. -/
def TMPL_meme : String := "Turn the input into a short meme-style caption or text suitable for social media (one-liners or 2-sentence punchlines):\n\n{input}"

/-- Template `sarcastic`. -/
def TMPL_sarcastic : String := "Turn this into a sarcastic version, with witty and ironic remarks:\n\n{input}"

/-- Template `roast`. -/
def TMPL_roast : String := "Turn this into a light-hearted roast, poking fun in a playful way:\n\n{input}"

/-- Template `pirate`. -/
def TMPL_pirate : String := "Turn this into pirate speak, with 'arr' and nautical terms:\n\n{input}"

/-- Template `yoda`. -/
def TMPL_yoda : String := "Turn this into Yoda speak, like 'Do or do not, there is no try':\n\n{input}"

/-- Template `cowboy`. -/
def TMPL_cowboy : String := "Turn this into cowboy speak, with 'howdy' and western slang:\n\n{input}"

/-- Template `poem`. -/
def TMPL_poem : String := "Turn this into a short poem (4-8 lines), keeping the original message:\n\n{input}"

/-- Template `timeline`. -/
def TMPL_timeline : String := "Convert the following notes into a chronological timeline of events or key points:\n\n{input}"

/-- Template `flashcards`. -/
def TMPL_flashcards : String := "Create flashcards from the following notes (question: answer format):\n\n{input}"

/-- Template `motivation`. -/
def TMPL_motivation : String := "Write a short, relatable motivational quote for a student about: {topic}. Keep it friendly and shareable (one or two lines)."

/-- Template `creativity_story`. -/
def TMPL_creativity_story : String := "Write a short (200-300 word) story about: {topic}. Keep it engaging and end with a twist."

/-- Template `creativity_joke`. -/
def TMPL_creativity_joke : String := "Write a short, wholesome joke about: {topic}."

/-- Template `notes_bullets`. -/
def TMPL_notes_bullets : String := "Convert the following lecture notes into concise bullet points capturing the key ideas, terms, and actions to remember:\n\n{input}"

/-- Template `mindmap_like`. -/
def TMPL_mindmap_like : String := "Given the following notes, return a short hierarchical list that could be turned into a mind map (root -> 3 main branches -> 2 subpoints each):\n\n{input}"

/-- Template `qa_tutor`. -/
def TMPL_qa_tutor : String := "You are a helpful tutor. Answer the question in a clear and friendly way, include one quick example and a 2-line summary at the end. If the user asks for step-by-step, provide numbered steps. Question:\n\n{input}"

/-- The `PROMPTS` dictionary as an association list (source lines 74-95). -/
def PROMPTS : List (String × String) :=
  [("summarize", TMPL_summarize), ("improve", TMPL_improve),
   ("explain_simple", TMPL_explain_simple), ("shakespeare", TMPL_shakespeare),
   ("rap", TMPL_rap), ("meme", TMPL_meme), ("sarcastic", TMPL_sarcastic),
   ("roast", TMPL_roast), ("pirate", TMPL_pirate), ("yoda", TMPL_yoda),
   ("cowboy", TMPL_cowboy), ("poem", TMPL_poem), ("timeline", TMPL_timeline),
   ("flashcards", TMPL_flashcards), ("motivation", TMPL_motivation),
   ("creativity_story", TMPL_creativity_story),
   ("creativity_joke", TMPL_creativity_joke),
   ("notes_bullets", TMPL_notes_bullets), ("mindmap_like", TMPL_mindmap_like),
   ("qa_tutor", TMPL_qa_tutor)]

/-- Dictionary lookup `PROMPTS[key]`; `none` models a Python `KeyError`. -/
def PROMPTS_get (key : String) : Option String :=
  (PROMPTS.find? (fun p => p.1 = key)).map Prod.snd

/-- An uploaded notes file: its MIME kind and the outcomes of the external
extraction steps (PdfReader construction and per-page `extract_text`, or
UTF-8 decoding of the raw bytes). -/
structure UploadedFile where
  isPdf : Bool
  pdfOutcome : Except String (List (Except String String))
  txtOutcome : Except String String

/-- The page loop of source lines 240-241: starting from `acc`, append
`page text ++ "\n"` per page until a page extraction throws; returns the
accumulated context and the exception, if any. -/
def accumPages (acc : String) : List (Except String String) → String × Option String
  | [] => (acc, none)
  | Except.ok t :: rest => accumPages (acc ++ t ++ "\n") rest
  | Except.error e :: _ => (acc, some e)

/-- Source lines 229-246: the notes-extraction block of the tutor mode.
Returns the extracted context and the list of error messages shown. -/
def extract_notes (env : Env) (notes_file : Option UploadedFile) : String × List String :=
  match notes_file with
  | none => ("", [])
  | some f =>
    if env.pypdf2Available = false then
      ("", ["PyPDF2 module not installed. Please install it to enable PDF file uploads."])
    else if f.isPdf then
      match f.pdfOutcome with
      | Except.error e => ("", ["Error reading notes file: " ++ e])
      | Except.ok pages =>
        match accumPages "" pages with
        | (ctx, none) => (ctx, [])
        | (ctx, some e) => (ctx, ["Error reading notes file: " ++ e])
    else
      match f.txtOutcome with
      | Except.ok t => (t, [])
      | Except.error e => ("", ["Error reading notes file: " ++ e])

/-- The f-string of source line 249, used when extracted context is
non-empty. -/
def notes_context_prompt (ctx input_text : String) : String :=
  "Use the following notes to answer the question simply and understandably:\n"
    ++ ctx ++ "\nQuestion:\n" ++ input_text

/-- Source lines 213-222: the Notes Organizer style dispatch. -/
def notes_style_prompt (style input_text : String) : String :=
  if style = "Bullets" then fmtInput TMPL_notes_bullets input_text
  else if style = "Mindmap-style" then fmtInput TMPL_mindmap_like input_text
  else if style = "Timeline" then fmtInput TMPL_timeline input_text
  else if style = "Flashcards" then fmtInput TMPL_flashcards input_text
  else fmtInput TMPL_notes_bullets input_text

/-- One invocation of `call_openai` with its arguments. -/
structure GenCall where
  prompt : String
  system : String
  temperature : Rat
  maxTokens : Nat
  deriving DecidableEq, Repr

/-- Observable outcome of one run action: the generation calls issued, the
`st.warning` / `st.error` messages, the rendered outputs, and whether an
uncaught exception escaped (a `KeyError` on the transform lookup). -/
structure RunResult where
  calls : List GenCall
  warnings : List String
  errors : List String
  outputs : List String
  crashed : Bool
  deriving Repr

/-- The six mode labels of the sidebar radio (source lines 114-121). -/
def MODES : List String :=
  ["Summarize", "Improve Text", "Fun Transform", "Motivation",
   "Notes Organizer", "Q&A Chat (Tutor)"]

/-- UI state at the moment the run button is evaluated. -/
structure UiState where
  mode : String
  input_text : String
  user_tone : String
  max_tokens : Nat
  temperature : Rat
  transform : String
  topic : String
  style : String
  notes_file : Option UploadedFile
  run_button : Bool

/-- Source lines 149-156 and 179-255: the run dispatch.  For a mode outside
the six, the main panel provides no input and no run button (lines
154-156); otherwise an empty (after strip) input warns, a filtered input
errors, and each mode branch builds its prompt and issues one generation
call. -/
def run_logic (env : Env) (ui : UiState) : RunResult :=
  let input_text := if MODES.contains ui.mode then ui.input_text else ""
  let run_button := if MODES.contains ui.mode then ui.run_button else false
  if run_button = false then
    RunResult.mk [] [] [] [] false
  else if pyStrip input_text = "" then
    RunResult.mk [] ["Please paste some text or a question first."] [] [] false
  else if simple_filter input_text = false then
    RunResult.mk [] [] ["Your input triggers the simple safety filter. Please modify and try again."] [] false
  else if ui.mode = "Summarize" then
    let prompt := apply_tone (fmtInput TMPL_summarize input_text) ui.user_tone
    let resp := (call_openai env prompt "" ui.temperature ui.max_tokens).1
    RunResult.mk [GenCall.mk prompt "" ui.temperature ui.max_tokens] [] []
      ["**Summary:**\n" ++ resp] false
  else if ui.mode = "Improve Text" then
    let prompt := apply_tone (fmtInput TMPL_improve input_text) ui.user_tone
    let resp := (call_openai env prompt "" ui.temperature ui.max_tokens).1
    RunResult.mk [GenCall.mk prompt "" ui.temperature ui.max_tokens] [] [] [resp] false
  else if ui.mode = "Fun Transform" then
    match PROMPTS_get (pyLower ui.transform) with
    | none => RunResult.mk [] [] [] [] true
    | some tmpl =>
      let prompt := apply_tone (fmtInput tmpl input_text) ui.user_tone
      let resp := (call_openai env prompt "" ui.temperature ui.max_tokens).1
      RunResult.mk [GenCall.mk prompt "" ui.temperature ui.max_tokens] [] []
        ["**" ++ ui.transform ++ " version:**\n" ++ resp] false
  else if ui.mode = "Motivation" then
    let prompt := apply_tone (fmtTopic TMPL_motivation ui.topic) ui.user_tone
    let resp := (call_openai env prompt "" ui.temperature 80).1
    RunResult.mk [GenCall.mk prompt "" ui.temperature 80] [] []
      ["📝 **Quote:** " ++ resp] false
  else if ui.mode = "Notes Organizer" then
    let prompt := apply_tone (notes_style_prompt ui.style input_text) ui.user_tone
    let resp := (call_openai env prompt "" (3 / 10 : Rat) ui.max_tokens).1
    RunResult.mk [GenCall.mk prompt "" (3 / 10 : Rat) ui.max_tokens] [] [] [resp] false
  else if ui.mode = "Q&A Chat (Tutor)" then
    let ce := extract_notes env ui.notes_file
    let prompt0 := fmtInput TMPL_qa_tutor input_text
    let prompt1 := if ce.1 ≠ "" then notes_context_prompt ce.1 input_text else prompt0
    let prompt := apply_tone prompt1 ui.user_tone
    let resp := (call_openai env prompt "" ui.temperature ui.max_tokens).1
    RunResult.mk [GenCall.mk prompt "" ui.temperature ui.max_tokens] [] ce.2 [resp] false
  else
    RunResult.mk [] [] [] ["Mode not implemented yet."] false

/-- Claim C1: `call_openai` never raises to its caller — for every input and
every backend outcome its returned string is either the whitespace-stripped
generated text or one of the three descriptive failure messages (missing
library, missing credential, backend error); nothing else escapes. -/
theorem call_openai_never_raises (env : Env) (prompt system : String)
    (temperature : Rat) (max_tokens : Nat) :
    (call_openai env prompt system temperature max_tokens).1
        = "Error: openai package not installed. Install with `pip install openai`."
      ∨ (call_openai env prompt system temperature max_tokens).1 = "Error: OPENAI_API_KEY not set."
      ∨ (∃ t, env.backend (mkMessages system prompt) temperature max_tokens = Except.ok t
          ∧ (call_openai env prompt system temperature max_tokens).1 = pyStrip t)
      ∨ (∃ e, env.backend (mkMessages system prompt) temperature max_tokens = Except.error e
          ∧ (call_openai env prompt system temperature max_tokens).1 = "OpenAI API error: " ++ e) := by
  unfold call_openai
  by_cases h1 : env.openaiAvailable = false
  · simp [h1]
  · by_cases h2 : pyTruthy env.apiKey = false
    · simp [h1, h2]
    · rcases hb : env.backend (mkMessages system prompt) temperature max_tokens with e | t
      · simp [h1, h2, hb]
      · simp [h1, h2, hb]

/-- Claim C2, counterexample: with `OPENAI_API_KEY` unset but the `openai`
library failing to import, `call_openai` returns the library-missing
message, not the credential-missing one — the import check precedes the
key check. -/
theorem call_openai_key_unset_counterexample :
    (Env.mk false none (fun _ _ _ => Except.ok "text") true).apiKey = none ∧
    (call_openai (Env.mk false none (fun _ _ _ => Except.ok "text") true) "p" "" 1 10).1
      ≠ "Error: OPENAI_API_KEY not set." := by
  exact ⟨rfl, by decide⟩

/-- Claim C2, amended: when no credential is configured, `call_openai`
never issues the backend network call, and — provided the `openai` library
is importable — it returns the credential-missing failure result. -/
theorem call_openai_credential_missing (env : Env) (prompt system : String)
    (temperature : Rat) (max_tokens : Nat) (h : env.apiKey = none) :
    (call_openai env prompt system temperature max_tokens).2 = false ∧
    (env.openaiAvailable = true →
      (call_openai env prompt system temperature max_tokens).1 = "Error: OPENAI_API_KEY not set.") := by
  unfold call_openai
  by_cases h1 : env.openaiAvailable = false
  · simp [h1]
  · have h2 : pyTruthy env.apiKey = false := by rw [h]; rfl
    simp [h1, h2]

/-- Claim C2, witness: the amended theorem at a concrete environment with
the key unset and the library importable. -/
theorem call_openai_credential_missing_witness :
    (call_openai (Env.mk true none (fun _ _ _ => Except.ok "text") true) "p" "" 1 10).2 = false ∧
    ((Env.mk true none (fun _ _ _ => Except.ok "text") true).openaiAvailable = true →
      (call_openai (Env.mk true none (fun _ _ _ => Except.ok "text") true) "p" "" 1 10).1
        = "Error: OPENAI_API_KEY not set.") :=
  call_openai_credential_missing (Env.mk true none (fun _ _ _ => Except.ok "text") true)
    "p" "" 1 10 rfl

/-- The four tone labels of the sidebar selectbox (source line 125). -/
def TONES : List String := ["Friendly", "Formal", "Casual", "Funny"]

/-- Claim C5: each of the four defined tones appends its fixed non-empty
directive suffix (so the input prompt is a prefix of the output and the
output is strictly longer), and any other tone value returns the prompt
unchanged. -/
theorem apply_tone_spec (p tone : String) :
    (tone = "Friendly" → apply_tone p tone = p ++ "\nKeep the tone friendly and encouraging.") ∧
    (tone = "Formal" → apply_tone p tone = p ++ "\nUse a formal and professional tone.") ∧
    (tone = "Casual" → apply_tone p tone = p ++ "\nUse a casual, chatty tone with short sentences.") ∧
    (tone = "Funny" → apply_tone p tone = p ++ "\nAdd light humor where appropriate.") ∧
    (tone ∈ TONES →
      (∃ s, s ≠ "" ∧ apply_tone p tone = p ++ s) ∧ p.length < (apply_tone p tone).length) ∧
    (tone ∉ TONES → apply_tone p tone = p) := by
  refine ⟨?_, ?_, ?_, ?_, ?_, ?_⟩
  · intro h; subst h; simp [apply_tone]
  · intro h; subst h; simp [apply_tone]
  · intro h; subst h; simp [apply_tone]
  · intro h; subst h; simp [apply_tone]
  · intro h
    simp only [TONES, List.mem_cons, List.mem_singleton, List.not_mem_nil, or_false] at h
    rcases h with h | h | h | h <;> subst h
    · refine ⟨⟨"\nKeep the tone friendly and encouraging.", by decide, by simp [apply_tone]⟩, ?_⟩
      simp [apply_tone, String.length_append] <;> decide
    · refine ⟨⟨"\nUse a formal and professional tone.", by decide, by simp [apply_tone]⟩, ?_⟩
      simp [apply_tone, String.length_append] <;> decide
    · refine ⟨⟨"\nUse a casual, chatty tone with short sentences.", by decide, by simp [apply_tone]⟩, ?_⟩
      simp [apply_tone, String.length_append] <;> decide
    · refine ⟨⟨"\nAdd light humor where appropriate.", by decide, by simp [apply_tone]⟩, ?_⟩
      simp [apply_tone, String.length_append] <;> decide
  · intro h
    simp only [TONES, List.mem_cons, List.mem_singleton, List.not_mem_nil, or_false,
      not_or] at h
    obtain ⟨h1, h2, h3, h4⟩ := h
    simp [apply_tone, h1, h2, h3, h4]

/-- Claim C5, witness: a defined tone appends its suffix and an undefined
tone passes the prompt through unchanged, at concrete inputs. -/
theorem apply_tone_spec_witness :
    apply_tone "x" "Casual" = "x" ++ "\nUse a casual, chatty tone with short sentences." ∧
    apply_tone "x" "Robot" = "x" :=
  ⟨(apply_tone_spec "x" "Casual").2.2.1 rfl,
   (apply_tone_spec "x" "Robot").2.2.2.2.2 (by decide)⟩

/-- The four recognized Notes Organizer styles (source line 142). -/
def NOTE_STYLES : List String := ["Bullets", "Mindmap-style", "Timeline", "Flashcards"]

/-- Claim C7: any unrecognized Notes Organizer style falls through to the
`notes_bullets` template, producing exactly the prompt the "Bullets" style
produces. -/
theorem notes_style_fallback (style input_text : String) (h : style ∉ NOTE_STYLES) :
    notes_style_prompt style input_text = notes_style_prompt "Bullets" input_text ∧
    notes_style_prompt style input_text = fmtInput TMPL_notes_bullets input_text := by
  simp only [NOTE_STYLES, List.mem_cons, List.mem_singleton, List.not_mem_nil, or_false,
    not_or] at h
  obtain ⟨h1, h2, h3, h4⟩ := h
  constructor
  · simp [notes_style_prompt, h1, h2, h3, h4]
  · simp [notes_style_prompt, h1, h2, h3, h4]

/-- Claim C7, witness: the fallback at the concrete unrecognized style
"Chaos". -/
theorem notes_style_fallback_witness :
    notes_style_prompt "Chaos" "n" = notes_style_prompt "Bullets" "n" ∧
    notes_style_prompt "Chaos" "n" = fmtInput TMPL_notes_bullets "n" :=
  notes_style_fallback "Chaos" "n" (by decide)

/-- Claim C3: `simple_filter` rejects exactly the inputs whose lowercased
text contains a banned substring; in particular any casing variant of a
banned word occurring in the input is rejected; and a rejected input never
reaches `call_openai` in the run dispatch. -/
theorem simple_filter_spec (text : String) (env : Env) (ui : UiState) :
    (simple_filter text = false ↔ ∃ b ∈ bannedWords, b.data <:+: (pyLower text).data) ∧
    (∀ w : String, w.data <:+: text.data → pyLower w ∈ bannedWords → simple_filter text = false) ∧
    (simple_filter ui.input_text = false → (run_logic env ui).calls = []) := by
  have hiff : ∀ t : String,
      simple_filter t = false ↔ ∃ b ∈ bannedWords, b.data <:+: (pyLower t).data := by
    intro t
    simp [simple_filter, pyInStr, List.any_eq_true]
  refine ⟨hiff text, ?_, ?_⟩
  · intro w hw hmem
    refine (hiff text).2 ⟨pyLower w, hmem, ?_⟩
    have h1 : (pyLower w).data = w.data.map Char.toLower := rfl
    have h2 : (pyLower text).data = text.data.map Char.toLower := rfl
    rw [h1, h2]
    exact hw.map Char.toLower
  · intro hf
    by_cases hm : ui.mode ∈ MODES
    · cases hr : ui.run_button
      · simp [run_logic, hm, hr]
      · by_cases hs : pyStrip ui.input_text = ""
        · simp [run_logic, hm, hr, hs]
        · simp [run_logic, hm, hr, hs, hf]
    · simp [run_logic, hm]

/-- Claim C3, witness: a casing variant of a banned word ("KiLl" inside
"aKiLlb") is rejected, and a rejected concrete input produces no
generation call in the run dispatch. -/
theorem simple_filter_spec_witness :
    simple_filter "aKiLlb" = false ∧
    (run_logic (Env.mk true (some "sk") (fun _ _ _ => Except.ok "text") true)
      (UiState.mk "Summarize" "the bomb" "Friendly" 400 1 "Pirate" "studying" "Bullets"
        none true)).calls = [] :=
  ⟨(simple_filter_spec "aKiLlb" (Env.mk true (some "sk") (fun _ _ _ => Except.ok "text") true)
      (UiState.mk "Summarize" "the bomb" "Friendly" 400 1 "Pirate" "studying" "Bullets"
        none true)).2.1 "KiLl" (by decide) (by decide),
   (simple_filter_spec "aKiLlb" (Env.mk true (some "sk") (fun _ _ _ => Except.ok "text") true)
      (UiState.mk "Summarize" "the bomb" "Friendly" 400 1 "Pirate" "studying" "Bullets"
        none true)).2.2 (by decide)⟩

/-- Claim C4: for every run action (run button pressed in one of the six
modes), an input that is empty after stripping, or one the admission
filter rejects, is blocked before any generation call: `call_openai` is
not invoked, nothing is rendered as output, and exactly one warning
(empty input) or one error (filter rejection) is shown. -/
theorem run_blocks_invalid (env : Env) (ui : UiState)
    (hm : MODES.contains ui.mode = true) (hr : ui.run_button = true)
    (h : pyStrip ui.input_text = "" ∨ simple_filter ui.input_text = false) :
    (run_logic env ui).calls = [] ∧ (run_logic env ui).outputs = [] ∧
    (if pyStrip ui.input_text = "" then
      (run_logic env ui).warnings = ["Please paste some text or a question first."] ∧
        (run_logic env ui).errors = []
    else
      (run_logic env ui).warnings = [] ∧
        (run_logic env ui).errors =
          ["Your input triggers the simple safety filter. Please modify and try again."]) := by
  have hm' : ui.mode ∈ MODES := by simpa using hm
  by_cases hs : pyStrip ui.input_text = ""
  · simp [run_logic, hm', hr, hs]
  · have hf : simple_filter ui.input_text = false := by
      rcases h with h | h
      · exact absurd h hs
      · exact h
    simp [run_logic, hm', hr, hs, hf]

/-- Claim C4, witness: whitespace-only input in Summarize mode is blocked
with only a warning shown. -/
theorem run_blocks_invalid_witness :
    (run_logic (Env.mk true (some "sk") (fun _ _ _ => Except.ok "text") true)
      (UiState.mk "Summarize" " \n " "Friendly" 400 1 "Pirate" "studying" "Bullets"
        none true)).calls = [] ∧
    (run_logic (Env.mk true (some "sk") (fun _ _ _ => Except.ok "text") true)
      (UiState.mk "Summarize" " \n " "Friendly" 400 1 "Pirate" "studying" "Bullets"
        none true)).outputs = [] ∧
    (if pyStrip " \n " = "" then
      (run_logic (Env.mk true (some "sk") (fun _ _ _ => Except.ok "text") true)
        (UiState.mk "Summarize" " \n " "Friendly" 400 1 "Pirate" "studying" "Bullets"
          none true)).warnings = ["Please paste some text or a question first."] ∧
        (run_logic (Env.mk true (some "sk") (fun _ _ _ => Except.ok "text") true)
          (UiState.mk "Summarize" " \n " "Friendly" 400 1 "Pirate" "studying" "Bullets"
            none true)).errors = []
    else
      (run_logic (Env.mk true (some "sk") (fun _ _ _ => Except.ok "text") true)
        (UiState.mk "Summarize" " \n " "Friendly" 400 1 "Pirate" "studying" "Bullets"
          none true)).warnings = [] ∧
        (run_logic (Env.mk true (some "sk") (fun _ _ _ => Except.ok "text") true)
          (UiState.mk "Summarize" " \n " "Friendly" 400 1 "Pirate" "studying" "Bullets"
            none true)).errors =
          ["Your input triggers the simple safety filter. Please modify and try again."]) :=
  run_blocks_invalid (Env.mk true (some "sk") (fun _ _ _ => Except.ok "text") true)
    (UiState.mk "Summarize" " \n " "Friendly" 400 1 "Pirate" "studying" "Bullets" none true)
    (by decide) rfl (Or.inl (by decide))

/-- Claim C6: in Fun Transform mode with transform "Pirate", input
"I am tired" and tone "Casual", the single generation call carries exactly
the pirate template with its placeholder replaced by "I am tired" followed
by the casual tone suffix, whatever the environment, sliders, and other
selector values. -/
theorem fun_transform_pirate_exact (env : Env) (mt : Nat) (temp : Rat)
    (tp st : String) (nf : Option UploadedFile) :
    (run_logic env
      (UiState.mk "Fun Transform" "I am tired" "Casual" mt temp "Pirate" tp st nf true)).calls =
      [GenCall.mk
        (fmtInput TMPL_pirate "I am tired" ++ "\nUse a casual, chatty tone with short sentences.")
        "" temp mt] := rfl

/-- Each page's extracted text followed by a newline, concatenated in page
order — the shape the extraction loop produces on success. -/
def joinPages (pages : List String) : String :=
  pages.foldr (fun p acc => p ++ "\n" ++ acc) ""

/-- On a list of pages that all extract successfully, the page loop
accumulates every page followed by a newline and reports no exception. -/
theorem accumPages_ok (pages : List String) : ∀ acc : String,
    accumPages acc (pages.map Except.ok) = (acc ++ joinPages pages, none) := by
  induction pages with
  | nil => intro acc; simp [accumPages, joinPages]
  | cons p ps ih =>
    intro acc
    simp only [List.map_cons, accumPages, joinPages, List.foldr_cons]
    rw [ih]
    simp [joinPages, String.append_assoc]

/-- What the spec's words describe for a paginated upload: the extracted
text of each page "concatenated in page order, separated by newlines"
(for the refinement comparison with the code's behavior). -/
def specPdfContext (pages : List String) : String :=
  String.intercalate "\n" pages

/-- Claim C9, counterexample: a one-page PDF whose page extracts to
"hello" yields context "hello\n" — each page is followed by a newline, so
the result carries a trailing newline and differs from the pages
intercalated with newline separators as the claim states it. -/
theorem extraction_pdf_counterexample :
    extract_notes (Env.mk true (some "sk") (fun _ _ _ => Except.ok "t") true)
        (some (UploadedFile.mk true (Except.ok [Except.ok "hello"]) (Except.ok ""))) =
      ("hello\n", []) ∧
    ("hello\n" : String) ≠ specPdfContext ["hello"] :=
  ⟨by decide, by decide⟩

/-- Claim C9, amended: on successful extraction a plain-text upload yields
its decoded content verbatim, and a paginated (PDF) upload yields each
page's extracted text followed by a newline, concatenated in page order
(so the context ends with a trailing newline when there is at least one
page). -/
theorem extraction_success_spec (env : Env) (f : UploadedFile)
    (hp : env.pypdf2Available = true) :
    (f.isPdf = false → ∀ t, f.txtOutcome = Except.ok t → extract_notes env (some f) = (t, [])) ∧
    (f.isPdf = true → ∀ pages : List String, f.pdfOutcome = Except.ok (pages.map Except.ok) →
      extract_notes env (some f) = (joinPages pages, [])) := by
  constructor
  · intro hpdf t ht
    simp [extract_notes, hp, hpdf, ht]
  · intro hpdf pages hpg
    simp only [extract_notes, hp, hpdf, hpg]
    rw [accumPages_ok pages ""]
    simp [String.empty_append]

/-- Claim C9, witness: the amended theorem at a concrete text upload of
"hello\nworld" and a concrete two-page PDF. -/
theorem extraction_success_spec_witness :
    extract_notes (Env.mk true (some "sk") (fun _ _ _ => Except.ok "t") true)
        (some (UploadedFile.mk false (Except.ok []) (Except.ok "hello\nworld"))) =
      ("hello\nworld", []) ∧
    extract_notes (Env.mk true (some "sk") (fun _ _ _ => Except.ok "t") true)
        (some (UploadedFile.mk true (Except.ok [Except.ok "p1", Except.ok "p2"]) (Except.ok ""))) =
      (joinPages ["p1", "p2"], []) :=
  ⟨(extraction_success_spec (Env.mk true (some "sk") (fun _ _ _ => Except.ok "t") true)
      (UploadedFile.mk false (Except.ok []) (Except.ok "hello\nworld")) rfl).1 rfl
      "hello\nworld" rfl,
   (extraction_success_spec (Env.mk true (some "sk") (fun _ _ _ => Except.ok "t") true)
      (UploadedFile.mk true (Except.ok [Except.ok "p1", Except.ok "p2"]) (Except.ok "")) rfl).2 rfl
      ["p1", "p2"] rfl⟩

/-- Claim C8, counterexample: a PDF whose first page extracts to "hello"
and whose second page extraction throws is an extraction failure (the
error is reported), yet the request proceeds with the partially extracted
context "hello\n", not with empty context: the issued prompt is the
notes-context prompt, which differs from the empty-context prompt. -/
theorem tutor_partial_context_counterexample :
    (run_logic (Env.mk true (some "sk") (fun _ _ _ => Except.ok "t") true)
      (UiState.mk "Q&A Chat (Tutor)" "What?" "Friendly" 400 1 "Pirate" "studying" "Bullets"
        (some (UploadedFile.mk true (Except.ok [Except.ok "hello", Except.error "boom"])
          (Except.ok ""))) true)).errors = ["Error reading notes file: boom"] ∧
    (run_logic (Env.mk true (some "sk") (fun _ _ _ => Except.ok "t") true)
      (UiState.mk "Q&A Chat (Tutor)" "What?" "Friendly" 400 1 "Pirate" "studying" "Bullets"
        (some (UploadedFile.mk true (Except.ok [Except.ok "hello", Except.error "boom"])
          (Except.ok ""))) true)).calls.map GenCall.prompt =
      [apply_tone (notes_context_prompt "hello\n" "What?") "Friendly"] ∧
    apply_tone (notes_context_prompt "hello\n" "What?") "Friendly"
      ≠ apply_tone (fmtInput TMPL_qa_tutor "What?") "Friendly" :=
  ⟨by decide, by decide, by decide⟩

/-- Claim C8, amended: in tutor mode with an uploaded document, any
extraction failure is reported as an error message and the request still
proceeds to the Generation Client — exactly one generation call is issued,
carrying the context extracted before the failure (which is empty unless
some pages were already extracted); extraction failure never aborts the
request. -/
theorem tutor_extraction_failure_proceeds (env : Env) (ui : UiState)
    (hmode : ui.mode = "Q&A Chat (Tutor)") (hr : ui.run_button = true)
    (hs : ¬ pyStrip ui.input_text = "") (hf : simple_filter ui.input_text = true)
    (hfail : (extract_notes env ui.notes_file).2 ≠ []) :
    (run_logic env ui).errors = (extract_notes env ui.notes_file).2 ∧
    (run_logic env ui).calls.length = 1 ∧
    (run_logic env ui).calls.map GenCall.prompt =
      [apply_tone
        (if (extract_notes env ui.notes_file).1 = "" then fmtInput TMPL_qa_tutor ui.input_text
         else notes_context_prompt (extract_notes env ui.notes_file).1 ui.input_text)
        ui.user_tone] := by
  have hm : ui.mode ∈ MODES := by rw [hmode]; decide
  by_cases hc : (extract_notes env ui.notes_file).1 = "" <;>
    simp [run_logic, MODES, hm, hmode, hr, hs, hf, hc]

/-- Claim C8, witness: the amended theorem at a concrete corrupt PDF whose
reader construction throws — the error is shown, one call is issued, and
the prompt is the empty-context tutor prompt. -/
theorem tutor_extraction_failure_proceeds_witness :
    (run_logic (Env.mk true (some "sk") (fun _ _ _ => Except.ok "t") true)
      (UiState.mk "Q&A Chat (Tutor)" "What?" "Friendly" 400 1 "Pirate" "studying" "Bullets"
        (some (UploadedFile.mk true (Except.error "corrupt") (Except.ok ""))) true)).errors =
      (extract_notes (Env.mk true (some "sk") (fun _ _ _ => Except.ok "t") true)
        (some (UploadedFile.mk true (Except.error "corrupt") (Except.ok "")))).2 ∧
    (run_logic (Env.mk true (some "sk") (fun _ _ _ => Except.ok "t") true)
      (UiState.mk "Q&A Chat (Tutor)" "What?" "Friendly" 400 1 "Pirate" "studying" "Bullets"
        (some (UploadedFile.mk true (Except.error "corrupt") (Except.ok ""))) true)).calls.length = 1 ∧
    (run_logic (Env.mk true (some "sk") (fun _ _ _ => Except.ok "t") true)
      (UiState.mk "Q&A Chat (Tutor)" "What?" "Friendly" 400 1 "Pirate" "studying" "Bullets"
        (some (UploadedFile.mk true (Except.error "corrupt") (Except.ok ""))) true)).calls.map
        GenCall.prompt =
      [apply_tone
        (if (extract_notes (Env.mk true (some "sk") (fun _ _ _ => Except.ok "t") true)
              (some (UploadedFile.mk true (Except.error "corrupt") (Except.ok "")))).1 = "" then
          fmtInput TMPL_qa_tutor "What?"
        else
          notes_context_prompt
            (extract_notes (Env.mk true (some "sk") (fun _ _ _ => Except.ok "t") true)
              (some (UploadedFile.mk true (Except.error "corrupt") (Except.ok "")))).1 "What?")
        "Friendly"] :=
  tutor_extraction_failure_proceeds (Env.mk true (some "sk") (fun _ _ _ => Except.ok "t") true)
    (UiState.mk "Q&A Chat (Tutor)" "What?" "Friendly" 400 1 "Pirate" "studying" "Bullets"
      (some (UploadedFile.mk true (Except.error "corrupt") (Except.ok ""))) true)
    rfl rfl (by decide) (by decide) (by decide)

/-- Claim C10: every generation call issued by the run dispatch carries
maximum output length 80 when the mode is Motivation and the slider value
otherwise, and temperature 3/10 when the mode is Notes Organizer and the
slider value otherwise; and in those two modes a valid input always issues
exactly one call. -/
theorem mode_param_overrides (env : Env) (ui : UiState) :
    (∀ c ∈ (run_logic env ui).calls,
      c.maxTokens = (if ui.mode = "Motivation" then 80 else ui.max_tokens) ∧
      c.temperature = (if ui.mode = "Notes Organizer" then (3 / 10 : Rat) else ui.temperature)) ∧
    (ui.run_button = true → ¬ pyStrip ui.input_text = "" → simple_filter ui.input_text = true →
      (ui.mode = "Motivation" ∨ ui.mode = "Notes Organizer") →
      (run_logic env ui).calls.length = 1) := by
  constructor
  · intro c hc
    by_cases hm : ui.mode ∈ MODES
    rotate_left
    · simp [run_logic, hm] at hc
    cases hr : ui.run_button
    · simp [run_logic, hm, hr] at hc
    by_cases hs : pyStrip ui.input_text = ""
    · simp [run_logic, hm, hr, hs] at hc
    by_cases hf : simple_filter ui.input_text = false
    · simp [run_logic, hm, hr, hs, hf] at hc
    by_cases h1 : ui.mode = "Summarize"
    · simp [run_logic, MODES, hm, hr, hs, hf, h1] at hc
      subst hc; exact ⟨by simp [h1], by simp [h1]⟩
    by_cases h2 : ui.mode = "Improve Text"
    · simp [run_logic, MODES, hm, hr, hs, hf, h1, h2] at hc
      subst hc; exact ⟨by simp [h2], by simp [h2]⟩
    by_cases h3 : ui.mode = "Fun Transform"
    · rcases hk : PROMPTS_get (pyLower ui.transform) with _ | tmpl
      · simp [run_logic, MODES, hm, hr, hs, hf, h1, h2, h3, hk] at hc
      · simp [run_logic, MODES, hm, hr, hs, hf, h1, h2, h3, hk] at hc
        subst hc; exact ⟨by simp [h3], by simp [h3]⟩
    by_cases h4 : ui.mode = "Motivation"
    · simp [run_logic, MODES, hm, hr, hs, hf, h1, h2, h3, h4] at hc
      subst hc; exact ⟨by simp [h4], by simp [h4]⟩
    by_cases h5 : ui.mode = "Notes Organizer"
    · simp [run_logic, MODES, hm, hr, hs, hf, h1, h2, h3, h4, h5] at hc
      subst hc; exact ⟨by simp [h5], by simp [h5]⟩
    by_cases h6 : ui.mode = "Q&A Chat (Tutor)"
    · simp [run_logic, MODES, hm, hr, hs, hf, h1, h2, h3, h4, h5, h6] at hc
      subst hc; exact ⟨by simp [h6], by simp [h6]⟩
    · simp [run_logic, MODES, hm, hr, hs, hf, h1, h2, h3, h4, h5, h6] at hc
  · intro hr hs hf hmode
    rcases hmode with h | h <;>
      have hm : ui.mode ∈ MODES := by rw [h]; decide
    all_goals simp [run_logic, MODES, hm, h, hr, hs, hf]

/-- Claim C10, witness: in Motivation mode with valid input exactly one
call is issued, and that call carries maximum output length 80 and the
slider temperature. -/
theorem mode_param_overrides_witness :
    (run_logic (Env.mk true (some "sk") (fun _ _ _ => Except.ok "t") true)
      (UiState.mk "Motivation" "go" "Friendly" 400 1 "Pirate" "studying" "Bullets"
        none true)).calls.length = 1 ∧
    ((GenCall.mk (apply_tone (fmtTopic TMPL_motivation "studying") "Friendly") "" 1 80).maxTokens =
      (if (UiState.mk "Motivation" "go" "Friendly" 400 1 "Pirate" "studying" "Bullets"
            none true).mode = "Motivation" then 80
       else (UiState.mk "Motivation" "go" "Friendly" 400 1 "Pirate" "studying" "Bullets"
            none true).max_tokens) ∧
     (GenCall.mk (apply_tone (fmtTopic TMPL_motivation "studying") "Friendly") "" 1 80).temperature =
      (if (UiState.mk "Motivation" "go" "Friendly" 400 1 "Pirate" "studying" "Bullets"
            none true).mode = "Notes Organizer" then (3 / 10 : Rat)
       else (UiState.mk "Motivation" "go" "Friendly" 400 1 "Pirate" "studying" "Bullets"
            none true).temperature)) :=
  ⟨(mode_param_overrides (Env.mk true (some "sk") (fun _ _ _ => Except.ok "t") true)
      (UiState.mk "Motivation" "go" "Friendly" 400 1 "Pirate" "studying" "Bullets" none true)).2
      rfl (by decide) (by decide) (Or.inl rfl),
   (mode_param_overrides (Env.mk true (some "sk") (fun _ _ _ => Except.ok "t") true)
      (UiState.mk "Motivation" "go" "Friendly" 400 1 "Pirate" "studying" "Bullets" none true)).1
      (GenCall.mk (apply_tone (fmtTopic TMPL_motivation "studying") "Friendly") "" 1 80)
      (show (GenCall.mk (apply_tone (fmtTopic TMPL_motivation "studying") "Friendly") "" 1 80) ∈
          [GenCall.mk (apply_tone (fmtTopic TMPL_motivation "studying") "Friendly") "" 1 80] from
        List.mem_singleton.mpr rfl)⟩

end StudyWiz
